import Mathlib

/-!
Verification of the raycast-vehicle controller of the gardenCenter
repository.  The rendering component `src/vehicle/Vehicle.tsx` is embedded
directly; the dynamics module `rapierRaycastVehicle.ts` that it imports is
not part of the sources, so its operations are modelled from the
specification where a claim needs them (each such definition carries a
doc comment saying so).  All numerics use exact rationals.
-/

namespace GardenCenter

/-- A 3-component vector with rational coordinates (three.js `Vector3`). -/
structure Vec3 where
  x : ℚ
  y : ℚ
  z : ℚ
deriving DecidableEq

/-- Dot product of two vectors. -/
def dot (a b : Vec3) : ℚ := a.x * b.x + a.y * b.y + a.z * b.z

/-- Squared Euclidean norm of a vector. -/
def normSq (a : Vec3) : ℚ := dot a a

/-- An RGB colour with rational components (three.js `Color`). -/
structure Color where
  r : ℚ
  g : ℚ
  b : ℚ
deriving DecidableEq

/-- three.js `Color.multiplyScalar`: scales every component. -/
def Color.multiplyScalar (c : Color) (s : ℚ) : Color :=
  ⟨c.r * s, c.g * s, c.b * s⟩

/-- three.js `Color` built from a hex literal such as `0x333333`:
each byte becomes a component in [0,1]. -/
def Color.ofHex (hex : ℕ) : Color :=
  ⟨((hex / 65536) % 256 : ℕ) / 255,
   ((hex / 256) % 256 : ℕ) / 255,
   ((hex % 256 : ℕ) : ℚ) / 255⟩

/-- `Vehicle.tsx` line 34: `new Color(1, 0.05, 0.05).multiplyScalar(1.5)`. -/
def BRAKE_LIGHTS_ON_COLOR : Color :=
  Color.multiplyScalar ⟨1, 1/20, 1/20⟩ (3/2)

/-- `Vehicle.tsx` line 35: `new Color(0x333333)`. -/
def BRAKE_LIGHTS_OFF_COLOR : Color := Color.ofHex 0x333333

/-- `Vehicle.tsx` line 37: `new Color(0.2, 0.2, 0.2).multiplyScalar(1.5)`. -/
def REVERSE_ON_COLOR : Color :=
  Color.multiplyScalar ⟨1/5, 1/5, 1/5⟩ (3/2)

/-- `Vehicle.tsx` line 38: `new Color(0.05, 0.4, 0.2).multiplyScalar(1.5)`. -/
def DRIVING_ON_COLOR : Color :=
  Color.multiplyScalar ⟨1/20, 2/5, 1/5⟩ (3/2)

/-- The colour assigned to the brake-light material by `setBraking`
(`Vehicle.tsx` lines 183–193): a chain of conditionals with `braking`
strongest, then `reversing`, then `driving`. -/
def setBrakingColor (braking reversing driving : Bool) : Color :=
  if braking then BRAKE_LIGHTS_ON_COLOR
  else if reversing then REVERSE_ON_COLOR
  else if driving then DRIVING_ON_COLOR
  else BRAKE_LIGHTS_OFF_COLOR

/-- Static per-wheel configuration (`WheelOptions` of the dynamics module,
with the fields supplied by `Vehicle.tsx` lines 84–131). -/
structure WheelOptions where
  radius : ℚ
  directionLocal : Vec3
  axleLocal : Vec3
  suspensionStiffness : ℚ
  suspensionRestLength : ℚ
  maxSuspensionForce : ℚ
  maxSuspensionTravel : ℚ
  sideFrictionStiffness : ℚ
  frictionSlip : ℚ
  dampingRelaxation : ℚ
  dampingCompression : ℚ
  rollInfluence : ℚ
  customSlidingRotationalSpeed : ℚ
  useCustomSlidingRotationalSpeed : Bool
  forwardAcceleration : ℚ
  sideAcceleration : ℚ
  chassisConnectionPointLocal : Vec3
deriving DecidableEq

/-- Axis index defaults of `Vehicle.tsx` lines 87–89. -/
def indexRightAxis : ℕ := 2

/-- `Vehicle.tsx` line 88. -/
def indexForwardAxis : ℕ := 0

/-- `Vehicle.tsx` line 89. -/
def indexUpAxis : ℕ := 1

/-- `Vehicle.tsx` line 91: `directionLocal: [0, -1, 0]`. -/
def directionLocal : Vec3 := ⟨0, -1, 0⟩

/-- `Vehicle.tsx` line 92: `axleLocal: [0, 0, 1]`. -/
def axleLocal : Vec3 := ⟨0, 0, 1⟩

/-- `Vehicle.tsx` line 112: `vehicleWidth: 2.8`. -/
def vehicleWidth : ℚ := 14/5

/-- `Vehicle.tsx` line 113: `vehicleHeight: -0.1`. -/
def vehicleHeight : ℚ := -1/10

/-- `Vehicle.tsx` line 114: `vehicleFront: -1.35`. -/
def vehicleFront : ℚ := -27/20

/-- `Vehicle.tsx` line 115: `vehicleBack: 1.3`. -/
def vehicleBack : ℚ := 13/10

/-- The shared wheel options of `Vehicle.tsx` lines 84–131
(`commonWheelOptions`): every numeric default of the control panel,
with the connection point left at the origin to be overridden per wheel. -/
def commonWheelOptions : WheelOptions :=
  { radius := 1/2
    directionLocal := directionLocal
    axleLocal := axleLocal
    suspensionStiffness := 30
    suspensionRestLength := 3/10
    maxSuspensionForce := 100000
    maxSuspensionTravel := 3/10
    sideFrictionStiffness := 1
    frictionSlip := 7/5
    dampingRelaxation := 23/10
    dampingCompression := 22/5
    rollInfluence := 1/100
    customSlidingRotationalSpeed := -30
    useCustomSlidingRotationalSpeed := true
    forwardAcceleration := 1
    sideAcceleration := 1
    chassisConnectionPointLocal := ⟨0, 0, 0⟩ }

/-- The four wheel configurations of `Vehicle.tsx` lines 133–178, in
source order: top-left, top-right, bottom-left, bottom-right, each a copy
of `commonWheelOptions` with its own chassis connection point. -/
def wheelConfigs : List WheelOptions :=
  [ { commonWheelOptions with
        chassisConnectionPointLocal :=
          ⟨vehicleBack, vehicleHeight, vehicleWidth * (1/2)⟩ },
    { commonWheelOptions with
        chassisConnectionPointLocal :=
          ⟨vehicleBack, vehicleHeight, vehicleWidth * (-1/2)⟩ },
    { commonWheelOptions with
        chassisConnectionPointLocal :=
          ⟨vehicleFront, vehicleHeight, vehicleWidth * (1/2)⟩ },
    { commonWheelOptions with
        chassisConnectionPointLocal :=
          ⟨vehicleFront, vehicleHeight, vehicleWidth * (-1/2)⟩ } ]

/-- Clamp a rational into `[lo, hi]`. -/
def clamp (x lo hi : ℚ) : ℚ :=
  if x ≤ lo then lo else if hi ≤ x then hi else x

/-- A clamped value lies in the clamping interval whenever the interval is
nonempty. -/
theorem clamp_mem (x lo hi : ℚ) (h : lo ≤ hi) :
    lo ≤ clamp x lo hi ∧ clamp x lo hi ≤ hi := by
  unfold clamp
  split_ifs with h1 h2
  · exact ⟨le_refl lo, h⟩
  · exact ⟨h, le_refl hi⟩
  · exact ⟨le_of_not_le h1, le_of_not_le h2⟩

/-- Per-wheel mutable per-tick state (spec §3, "Dynamic state"). -/
structure WheelState where
  suspensionLength : ℚ
  lastSuspensionLength : ℚ
  inContact : Bool
  suspensionForce : ℚ
  rotation : ℚ
  angularVelocity : ℚ
deriving DecidableEq

/-- Modelled from the spec: `rapierRaycastVehicle.ts` is not among the
sources; spec §4.2 step 3 says a wheel with no raycast hit "still
free-spins based on prior angular velocity decayed by a small drag
factor".  The exact factor is unspecified; any constant in (0,1) fits. -/
def freeSpinDrag : ℚ := 99/100

/-- Modelled from the spec: initial wheel dynamic state on registration
(`rapierRaycastVehicle.ts` not under src/): suspension at rest length, no
contact, no force, no rotation. -/
def initWheelState (o : WheelOptions) : WheelState :=
  { suspensionLength := o.suspensionRestLength
    lastSuspensionLength := o.suspensionRestLength
    inContact := false
    suspensionForce := 0
    rotation := 0
    angularVelocity := 0 }

/-- Modelled from the spec: the per-wheel suspension raycast solver of
`rapierRaycastVehicle.ts` (not under src/), following §4.2 steps 3–8.
The raycast outcome is abstracted to the optional hit distance.
No hit: not in contact, length fully extended to rest + max travel, zero
force, angular velocity decayed by the drag factor.  Hit: contact
distance = hit distance − radius; length clamped to [0, rest + travel];
spring force = stiffness × (rest − length) clamped to [0, max force];
damper velocity = (last − current)/dt with the compression coefficient
when positive, relaxation otherwise; total = spring + damper clamped to
[0, max force]; last length updated to the current one. -/
def updateSuspension (o : WheelOptions) (s : WheelState) (dt : ℚ)
    (rayHit : Option ℚ) : WheelState :=
  match rayHit with
  | none =>
      { s with
          inContact := false
          suspensionLength := o.suspensionRestLength + o.maxSuspensionTravel
          lastSuspensionLength := o.suspensionRestLength + o.maxSuspensionTravel
          suspensionForce := 0
          angularVelocity := s.angularVelocity * freeSpinDrag
          rotation := s.rotation + s.angularVelocity * freeSpinDrag * dt }
  | some hitDistance =>
      let contactDistance := hitDistance - o.radius
      let suspensionLength :=
        clamp contactDistance 0 (o.suspensionRestLength + o.maxSuspensionTravel)
      let springForce :=
        clamp (o.suspensionStiffness * (o.suspensionRestLength - suspensionLength))
          0 o.maxSuspensionForce
      let suspensionVelocity := (s.lastSuspensionLength - suspensionLength) / dt
      let dampingCoefficient :=
        if 0 < suspensionVelocity then o.dampingCompression else o.dampingRelaxation
      let damperForce := dampingCoefficient * suspensionVelocity
      let totalForce := clamp (springForce + damperForce) 0 o.maxSuspensionForce
      { s with
          inContact := true
          suspensionLength := suspensionLength
          lastSuspensionLength := suspensionLength
          suspensionForce := totalForce }

/-- The spring-force term of the hit branch of `updateSuspension`, exposed
for the statements about its clamping. -/
def springForceAt (o : WheelOptions) (suspensionLength : ℚ) : ℚ :=
  clamp (o.suspensionStiffness * (o.suspensionRestLength - suspensionLength))
    0 o.maxSuspensionForce

/-- The error taxonomy of spec §7. -/
inductive VehicleError where
  | InvalidConfiguration
  | InvalidTimestep
  | MissingChassis
deriving DecidableEq

/-- A registered wheel: its immutable options and its dynamic state. -/
structure Wheel where
  options : WheelOptions
  state : WheelState
deriving DecidableEq

/-- The raycast vehicle (`RapierRaycastVehicle` of the dynamics module):
the chassis rigid-body handle, the three local axis indices, and the
ordered wheel list. -/
structure RaycastVehicle where
  chassisRigidBody : ℕ
  indexRightAxis : ℕ
  indexForwardAxis : ℕ
  indexUpAxis : ℕ
  wheels : List Wheel
deriving DecidableEq

/-- Modelled from the spec: the `RapierRaycastVehicle` constructor
(`rapierRaycastVehicle.ts` not under src/): binds the already-existing
chassis handle and the axis indices and starts with an empty wheel list
(spec §3, Lifecycle).  `Vehicle.tsx` lines 197–204 call it with the
configured axis index defaults. -/
def mkRapierRaycastVehicle (chassis : ℕ) : RaycastVehicle :=
  { chassisRigidBody := chassis
    indexRightAxis := indexRightAxis
    indexForwardAxis := indexForwardAxis
    indexUpAxis := indexUpAxis
    wheels := [] }

/-- Whether a wheel configuration is well formed (spec §4.1 and §7):
suspension direction and axle direction unit vectors, mutually
perpendicular, radius and stiffness nonnegative. -/
def validWheelConfig (o : WheelOptions) : Bool :=
  decide (normSq o.directionLocal = 1) &&
  decide (normSq o.axleLocal = 1) &&
  decide (dot o.directionLocal o.axleLocal = 0) &&
  decide (0 ≤ o.radius) &&
  decide (0 ≤ o.suspensionStiffness)

/-- Modelled from the spec: `addWheel` of `rapierRaycastVehicle.ts` (not
under src/), spec §4.1: rejects a malformed configuration with
`InvalidConfiguration` without registering or clamping anything;
otherwise appends the wheel unchanged and returns its stable index. -/
def addWheel (v : RaycastVehicle) (o : WheelOptions) :
    Except VehicleError (RaycastVehicle × ℕ) :=
  if validWheelConfig o then
    Except.ok ({ v with wheels := v.wheels ++ [⟨o, initWheelState o⟩] },
               v.wheels.length)
  else
    Except.error VehicleError.InvalidConfiguration

/-- Modelled from the spec: `tick(deltaTime)` of
`rapierRaycastVehicle.ts` (not under src/), spec §4.1 and §7, with the
reject policy for the timestep precondition: a non-positive `deltaTime`
fails with `InvalidTimestep` and no wheel state changes; otherwise every
wheel runs the suspension solver against its raycast outcome for this
tick (the per-wheel hit distances are passed in, abstracting the engine
ray-cast query). -/
def tick (v : RaycastVehicle) (dt : ℚ) (rayHits : List (Option ℚ)) :
    Except VehicleError RaycastVehicle :=
  if dt ≤ 0 then
    Except.error VehicleError.InvalidTimestep
  else
    Except.ok
      { v with
          wheels :=
            (v.wheels.zip rayHits).map fun p =>
              { p.1 with state := updateSuspension p.1.options p.1.state dt p.2 } }

/-- The per-wheel suspension lengths of a vehicle, in wheel order. -/
def suspensionLengths (v : RaycastVehicle) : List ℚ :=
  v.wheels.map fun w => w.state.suspensionLength

/-- The per-wheel suspension forces applied to the chassis, in wheel
order. -/
def suspensionForces (v : RaycastVehicle) : List ℚ :=
  v.wheels.map fun w => w.state.suspensionForce

/-- Run `tick` over a sequence of (deltaTime, per-wheel ray hits) steps,
recording after each successful tick the suspension lengths and forces;
a rejected tick leaves the state intact and records nothing. -/
def runTrace : RaycastVehicle → List (ℚ × List (Option ℚ)) →
    List (List ℚ × List ℚ)
  | _, [] => []
  | v, (dt, hits) :: rest =>
      match tick v dt hits with
      | Except.ok v1 =>
          (suspensionLengths v1, suspensionForces v1) :: runTrace v1 rest
      | Except.error _ => runTrace v rest

/-- The vehicle as assembled by the `useEffect` of `Vehicle.tsx` lines
197–221: construct, then add the four wheels in source order (ignoring a
rejected wheel, which does not occur for the source configuration). -/
def constructedVehicle (chassis : ℕ) : RaycastVehicle :=
  wheelConfigs.foldl
    (fun acc o =>
      match addWheel acc o with
      | Except.ok (v1, _) => v1
      | Except.error _ => acc)
    (mkRapierRaycastVehicle chassis)

/-- A three.js material, reduced to the one field `setBraking` touches. -/
structure Material where
  color : Color
deriving DecidableEq

/-- The mutable pieces of the `Vehicle` component reachable from the
imperative handle of `Vehicle.tsx` lines 180–195: the brake-light and
front-light materials, the wheel option list, the chassis rigid-body
handle and the raycast-vehicle instance. -/
structure VehicleComponentState where
  brakeLightsMaterial : Material
  frontLightsMaterial : Material
  wheelOptions : List WheelOptions
  chassisRigidBody : ℕ
  rapierRaycastVehicle : RaycastVehicle
deriving DecidableEq

/-- `setBraking` of `Vehicle.tsx` lines 183–193: assigns the dispatched
colour to the brake-light material and touches nothing else. -/
def setBraking (s : VehicleComponentState)
    (braking reversing driving : Bool) : VehicleComponentState :=
  { s with
      brakeLightsMaterial :=
        { color := setBrakingColor braking reversing driving } }

/-- A one-wheel vehicle used to exercise `tick` on concrete data. -/
def sampleVehicle : RaycastVehicle :=
  { mkRapierRaycastVehicle 0 with
      wheels := [⟨commonWheelOptions, initWheelState commonWheelOptions⟩] }

/-- The result of one no-hit tick of `sampleVehicle` at `dt = 1`. -/
def sampleTicked : RaycastVehicle :=
  { sampleVehicle with
      wheels :=
        (sampleVehicle.wheels.zip [(none : Option ℚ)]).map fun p =>
          { p.1 with state := updateSuspension p.1.options p.1.state 1 p.2 } }

/-- A wheel configuration with a non-unit suspension direction, rejected
by `validWheelConfig`. -/
def invalidWheelOptions : WheelOptions :=
  { commonWheelOptions with directionLocal := ⟨0, -2, 0⟩ }

/-- All four source wheel configurations pass the configuration check:
validity only inspects the shared fields, never the connection point. -/
theorem validWheelConfig_common_update (p : Vec3) :
    validWheelConfig
      { commonWheelOptions with chassisConnectionPointLocal := p } = true := by
  simp [validWheelConfig, commonWheelOptions, normSq, dot, directionLocal,
    axleLocal]

/-- The wheel list produced by the `useEffect` assembly: exactly the four
source configurations in order, each with the fresh initial state. -/
theorem constructedVehicle_wheels (chassis : ℕ) :
    (constructedVehicle chassis).wheels =
      wheelConfigs.map (fun o => Wheel.mk o (initWheelState o)) := by
  simp [constructedVehicle, wheelConfigs, addWheel, mkRapierRaycastVehicle,
    validWheelConfig_common_update]

/-- Claim C1: for every wheel and every tick, the spring force magnitude
is stiffness × (rest length − suspension length) clamped into
[0, max suspension force], and the total suspension force stored by the
solver always lies in [0, maxSuspensionForce]; in the concrete scenario
(rest length 0.3, stiffness 30, zero suspension velocity, ray hit at
distance 0.3 + radius 0.5) the suspension length is 0.3 and the spring
and total forces are exactly zero. -/
theorem suspension_force_clamped (o : WheelOptions) (s : WheelState)
    (dt : ℚ) (rayHit : Option ℚ) (hmax : 0 ≤ o.maxSuspensionForce) :
    (0 ≤ (updateSuspension o s dt rayHit).suspensionForce ∧
      (updateSuspension o s dt rayHit).suspensionForce ≤
        o.maxSuspensionForce) ∧
    (∀ len : ℚ, 0 ≤ springForceAt o len ∧
      springForceAt o len ≤ o.maxSuspensionForce) ∧
    ((updateSuspension commonWheelOptions (initWheelState commonWheelOptions)
        (1/60) (some (4/5))).suspensionLength = 3/10 ∧
      springForceAt commonWheelOptions (3/10) = 0 ∧
      (updateSuspension commonWheelOptions (initWheelState commonWheelOptions)
        (1/60) (some (4/5))).suspensionForce = 0) := by
  refine ⟨?_, fun len => clamp_mem _ _ _ hmax, ?_, ?_, ?_⟩
  · cases rayHit with
    | none => exact ⟨le_refl _, hmax⟩
    | some d => exact clamp_mem _ _ _ hmax
  · norm_num [updateSuspension, clamp, commonWheelOptions, initWheelState]
  · norm_num [springForceAt, clamp, commonWheelOptions]
  · norm_num [updateSuspension, clamp, commonWheelOptions, initWheelState]

/-- Witness for C1 at the default wheel options, the fresh state, and the
scenario raycast hit. -/
theorem suspension_force_clamped_witness :
    (0 : ℚ) ≤ commonWheelOptions.maxSuspensionForce ∧
    (0 ≤ (updateSuspension commonWheelOptions
        (initWheelState commonWheelOptions) (1/60)
        (some (4/5))).suspensionForce ∧
      (updateSuspension commonWheelOptions (initWheelState commonWheelOptions)
        (1/60) (some (4/5))).suspensionForce ≤
          commonWheelOptions.maxSuspensionForce) := by
  refine ⟨by norm_num [commonWheelOptions], ?_⟩
  exact (suspension_force_clamped commonWheelOptions
    (initWheelState commonWheelOptions) (1/60) (some (4/5))
    (by norm_num [commonWheelOptions])).1

/-- Claim C2: a wheel whose suspension raycast misses is marked not in
contact, its suspension length becomes rest length + max travel (fully
extended), the force it contributes to the chassis this tick is exactly
zero, and its angular velocity is the prior one decayed by the drag
factor. -/
theorem no_hit_free_extension (o : WheelOptions) (s : WheelState)
    (dt : ℚ) :
    (updateSuspension o s dt none).inContact = false ∧
    (updateSuspension o s dt none).suspensionLength =
      o.suspensionRestLength + o.maxSuspensionTravel ∧
    (updateSuspension o s dt none).suspensionForce = 0 ∧
    (updateSuspension o s dt none).angularVelocity =
      s.angularVelocity * freeSpinDrag :=
  ⟨rfl, rfl, rfl, rfl⟩

/-- Claim C3: `addWheel` accepts a configuration exactly when the
suspension and axle directions are perpendicular unit vectors and radius
and stiffness are nonnegative; a malformed configuration is rejected
with `InvalidConfiguration`, and an accepted one is registered unchanged
(never clamped) at the stable index returned. -/
theorem addWheel_rejects_invalid (v : RaycastVehicle) (o : WheelOptions) :
    (validWheelConfig o = true ↔
      (normSq o.directionLocal = 1 ∧ normSq o.axleLocal = 1 ∧
        dot o.directionLocal o.axleLocal = 0 ∧ 0 ≤ o.radius ∧
        0 ≤ o.suspensionStiffness)) ∧
    (validWheelConfig o = false →
      addWheel v o = Except.error VehicleError.InvalidConfiguration) ∧
    (validWheelConfig o = true →
      addWheel v o = Except.ok
        ({ v with wheels := v.wheels ++ [⟨o, initWheelState o⟩] },
          v.wheels.length) ∧
      (v.wheels ++ [⟨o, initWheelState o⟩])[v.wheels.length]? =
        some ⟨o, initWheelState o⟩) := by
  refine ⟨?_, ?_, ?_⟩
  · simp only [validWheelConfig, Bool.and_eq_true, decide_eq_true_eq]
    tauto
  · intro h
    simp [addWheel, h]
  · intro h
    exact ⟨by simp [addWheel, h], List.getElem?_concat_length _ _⟩

/-- Witness for C3: the default options are accepted and registered at
index 0; the non-unit-direction options are rejected. -/
theorem addWheel_rejects_invalid_witness :
    addWheel (mkRapierRaycastVehicle 0) invalidWheelOptions =
      Except.error VehicleError.InvalidConfiguration ∧
    addWheel (mkRapierRaycastVehicle 0) commonWheelOptions =
      Except.ok
        ({ mkRapierRaycastVehicle 0 with
            wheels := [⟨commonWheelOptions,
              initWheelState commonWheelOptions⟩] }, 0) := by
  constructor
  · refine (addWheel_rejects_invalid (mkRapierRaycastVehicle 0)
      invalidWheelOptions).2.1 ?_
    rw [← Bool.not_eq_true,
      (addWheel_rejects_invalid (mkRapierRaycastVehicle 0)
        invalidWheelOptions).1]
    norm_num [invalidWheelOptions, commonWheelOptions, normSq, dot]
  · exact ((addWheel_rejects_invalid (mkRapierRaycastVehicle 0)
      commonWheelOptions).2.2 (validWheelConfig_common_update _)).1

/-- Claim C4: `tick` with a non-positive deltaTime is rejected with
`InvalidTimestep` (the single documented policy of the model) and the
wheel state of the previous tick is left intact: the trace continues
from the unchanged vehicle. -/
theorem tick_rejects_nonpositive_dt (v : RaycastVehicle) (dt : ℚ)
    (hits : List (Option ℚ)) (h : dt ≤ 0) :
    tick v dt hits = Except.error VehicleError.InvalidTimestep ∧
    (∀ rest, runTrace v ((dt, hits) :: rest) = runTrace v rest) := by
  constructor
  · simp [tick, h]
  · intro rest
    simp [runTrace, tick, h]

/-- Witness for C4 at deltaTime zero. -/
theorem tick_rejects_nonpositive_dt_witness :
    tick (mkRapierRaycastVehicle 0) 0 [] =
      Except.error VehicleError.InvalidTimestep ∧
    runTrace (mkRapierRaycastVehicle 0) [(0, [])] =
      runTrace (mkRapierRaycastVehicle 0) [] := by
  have h := tick_rejects_nonpositive_dt (mkRapierRaycastVehicle 0) 0 []
    (le_refl 0)
  exact ⟨h.1, h.2 []⟩

/-- Claim C5: the vehicle built by the component carries the configured
axis indices right = 2, forward = 0, up = 1: each lies in {0,1,2} and
they are pairwise distinct at the moment the `RapierRaycastVehicle` is
created. -/
theorem axis_indices_valid_and_distinct (chassis : ℕ) :
    ((mkRapierRaycastVehicle chassis).indexRightAxis < 3 ∧
      (mkRapierRaycastVehicle chassis).indexForwardAxis < 3 ∧
      (mkRapierRaycastVehicle chassis).indexUpAxis < 3) ∧
    (mkRapierRaycastVehicle chassis).indexRightAxis ≠
      (mkRapierRaycastVehicle chassis).indexForwardAxis ∧
    (mkRapierRaycastVehicle chassis).indexForwardAxis ≠
      (mkRapierRaycastVehicle chassis).indexUpAxis ∧
    (mkRapierRaycastVehicle chassis).indexRightAxis ≠
      (mkRapierRaycastVehicle chassis).indexUpAxis := by
  refine ⟨⟨?_, ?_, ?_⟩, ?_, ?_, ?_⟩ <;>
    simp [mkRapierRaycastVehicle, indexRightAxis, indexForwardAxis,
      indexUpAxis]

/-- Claim C6: the vehicle is constructed bound to the existing chassis
handle with an empty wheel list; the `useEffect` appends the four wheels
through `addWheel` before any tick, and a tick never changes a wheel's
options (so the index-to-connection-point mapping is fixed for the
vehicle's lifetime). -/
theorem vehicle_lifecycle (chassis : ℕ) :
    (mkRapierRaycastVehicle chassis).wheels = [] ∧
    (mkRapierRaycastVehicle chassis).chassisRigidBody = chassis ∧
    (constructedVehicle chassis).wheels.map Wheel.options = wheelConfigs ∧
    (∀ (v v1 : RaycastVehicle) (dt : ℚ) (hits : List (Option ℚ)),
      hits.length = v.wheels.length →
      tick v dt hits = Except.ok v1 →
      v1.wheels.map Wheel.options = v.wheels.map Wheel.options ∧
      v1.chassisRigidBody = v.chassisRigidBody) := by
  refine ⟨rfl, rfl, ?_, ?_⟩
  · simp [constructedVehicle_wheels, List.map_map]
    exact List.map_id wheelConfigs
  · intro v v1 dt hits hlen htick
    unfold tick at htick
    by_cases hdt : dt ≤ 0
    · rw [if_pos hdt] at htick
      exact absurd htick (by simp)
    · rw [if_neg hdt, Except.ok.injEq] at htick
      subst htick
      refine ⟨?_, rfl⟩
      rw [List.map_map]
      have h1 : ((v.wheels.zip hits).map Prod.fst).map Wheel.options =
          v.wheels.map Wheel.options := by
        rw [List.map_fst_zip v.wheels hits (le_of_eq hlen.symm)]
      rw [← h1, List.map_map]
      rfl

/-- Witness for C6: one no-hit tick of the one-wheel sample vehicle
preserves its wheel options. -/
theorem vehicle_lifecycle_witness :
    (mkRapierRaycastVehicle 0).wheels = [] ∧
    sampleTicked.wheels.map Wheel.options =
      sampleVehicle.wheels.map Wheel.options := by
  refine ⟨(vehicle_lifecycle 0).1, ?_⟩
  refine ((vehicle_lifecycle 0).2.2.2 sampleVehicle sampleTicked 1
    [none] rfl ?_).1
  show tick sampleVehicle 1 [none] = Except.ok sampleTicked
  unfold tick
  rw [if_neg (by norm_num)]
  rfl

/-- Claim C7: `setBraking` drives the brake-light colour: the brake-on
colour whenever `braking` is set regardless of the other flags,
otherwise the reverse colour when `reversing`, otherwise the driving
colour when `driving`, otherwise the off colour. -/
theorem setBraking_brake_light_dispatch :
    (∀ (s : VehicleComponentState) (reversing driving : Bool),
      (setBraking s true reversing driving).brakeLightsMaterial.color =
        BRAKE_LIGHTS_ON_COLOR) ∧
    (∀ (s : VehicleComponentState) (driving : Bool),
      (setBraking s false true driving).brakeLightsMaterial.color =
        REVERSE_ON_COLOR) ∧
    (∀ s : VehicleComponentState,
      (setBraking s false false true).brakeLightsMaterial.color =
        DRIVING_ON_COLOR) ∧
    (∀ s : VehicleComponentState,
      (setBraking s false false false).brakeLightsMaterial.color =
        BRAKE_LIGHTS_OFF_COLOR) :=
  ⟨fun _ _ _ => rfl, fun _ _ => rfl, fun _ => rfl, fun _ => rfl⟩

/-- Claim C8: the controller is deterministic: two runs from equal
initial states over equal (deltaTime, raycast) sequences produce
identical traces of suspension lengths and forces. -/
theorem controller_deterministic (v1 v2 : RaycastVehicle)
    (steps1 steps2 : List (ℚ × List (Option ℚ)))
    (hv : v1 = v2) (hs : steps1 = steps2) :
    runTrace v1 steps1 = runTrace v2 steps2 := by
  subst hv
  subst hs
  rfl

/-- Witness for C8 on the one-wheel sample vehicle and a one-step
sequence. -/
theorem controller_deterministic_witness :
    runTrace sampleVehicle [(1, [some 1])] =
      runTrace sampleVehicle [(1, [some 1])] :=
  controller_deterministic sampleVehicle sampleVehicle
    [(1, [some 1])] [(1, [some 1])] rfl rfl

/-- Claim C9: the constructed vehicle has exactly four wheels, registered
in the order rear-left, rear-right, front-left, front-right; the
connection points are (back, height, ±width/2) and (front, height,
±width/2), mirror-symmetric in the third coordinate, and erasing the
connection point turns every configuration into the shared
`commonWheelOptions`. -/
theorem four_wheel_layout (chassis : ℕ) :
    (constructedVehicle chassis).wheels.length = 4 ∧
    (constructedVehicle chassis).wheels.map Wheel.options = wheelConfigs ∧
    wheelConfigs.map WheelOptions.chassisConnectionPointLocal =
      [⟨vehicleBack, vehicleHeight, vehicleWidth / 2⟩,
        ⟨vehicleBack, vehicleHeight, -(vehicleWidth / 2)⟩,
        ⟨vehicleFront, vehicleHeight, vehicleWidth / 2⟩,
        ⟨vehicleFront, vehicleHeight, -(vehicleWidth / 2)⟩] ∧
    wheelConfigs.map
        (fun o => { o with
          chassisConnectionPointLocal := (⟨0, 0, 0⟩ : Vec3) }) =
      List.replicate 4 commonWheelOptions := by
  refine ⟨?_, ?_, ?_, rfl⟩
  · simp [constructedVehicle_wheels, wheelConfigs]
  · simp [constructedVehicle_wheels, List.map_map]
    exact List.map_id wheelConfigs
  · norm_num [wheelConfigs, commonWheelOptions, vehicleWidth,
      vehicleHeight, vehicleFront, vehicleBack, Vec3.mk.injEq]

/-- Claim C10: `setBraking` only changes the brake-light material; the
front-light material, the wheel options, the chassis handle and the
raycast-vehicle instance are untouched, and the brake-light material
receives exactly the dispatched colour. -/
theorem setBraking_frame (s : VehicleComponentState)
    (braking reversing driving : Bool) :
    (setBraking s braking reversing driving).frontLightsMaterial =
      s.frontLightsMaterial ∧
    (setBraking s braking reversing driving).wheelOptions =
      s.wheelOptions ∧
    (setBraking s braking reversing driving).chassisRigidBody =
      s.chassisRigidBody ∧
    (setBraking s braking reversing driving).rapierRaycastVehicle =
      s.rapierRaycastVehicle ∧
    (setBraking s braking reversing driving).brakeLightsMaterial =
      ⟨setBrakingColor braking reversing driving⟩ :=
  ⟨rfl, rfl, rfl, rfl, rfl⟩

end GardenCenter
